import Mathlib

/-!
# Rabtap: subscriber worker and tap orchestration

A shallow embedding of `pkg/subscribe.go` and `cmd/rabtap/cmd_tap.go`.

Modelling conventions

* A Go pointer or interface value that may be nil is an `Option`; `none` is nil.
* Channel sends, logger calls and broker requests are recorded, in program
  order, in a list of `Effect`s returned next to the Go result.
* A `select` loop is run against the list of outcomes the Go runtime yields,
  one per iteration; when the list is exhausted before the loop returned, the
  loop is still waiting in `select` and the returned action is `none`.
* The tap channel is unbuffered; a send is recorded when it happens, i.e. the
  consumer is assumed to take every envelope offered to it.
* `time.Now()` readings and the bytes produced by `uuid.NewRandom()` are inputs.
-/

namespace Rabtap

/-! ## Data model -/

/-- A non-nil Go `error` value; the Go type `error` is `Option GoError`. -/
structure GoError where
  msg : String
deriving DecidableEq, Repr

/-- A reading of `time.Now()`. -/
abbrev Time := Nat

/-- The library type `amqp.Delivery`, restricted to the fields a consumer of
the tap channel looks at; `Body` holds the bytes of the message body. -/
structure Delivery where
  Exchange : String
  RoutingKey : String
  DeliveryTag : Nat
  Body : String
deriving DecidableEq, Repr

/-- The Go zero value of `amqp.Delivery`. -/
def Delivery.zero : Delivery := ⟨"", "", 0, ""⟩

/-- Modelled from the spec: the control message enumeration (declared in
pkg/connector.go, which is not part of the sources at hand): a small closed
enumeration with the members shutdown and force-reconnect. -/
inductive ControlMessage where
  | shutdownMessage
  | reconnectMessage
deriving DecidableEq, Repr

/-- Modelled from the spec: the reconnect action enumeration (declared in
pkg/connector.go): what a worker invocation returns when it stops. -/
inductive ReconnectAction where
  | doNotReconnect
  | doReconnect
deriving DecidableEq, Repr

/-- The struct `TapMessage`: `AmqpMessage` is a `*amqp.Delivery`, `Error` an
`error`. -/
structure TapMessage where
  AmqpMessage : Option Delivery
  Error : Option GoError
  ReceivedTimestamp : Time
deriving DecidableEq, Repr

/-- Go `NewTapMessage`. -/
def NewTapMessage (message : Option Delivery) (err : Option GoError) (ts : Time) : TapMessage :=
  { AmqpMessage := message, Error := err, ReceivedTimestamp := ts }

/-- A `TapChannel` value, identified by a handle. -/
structure TapChannel where
  id : Nat
deriving DecidableEq, Repr

/-- The struct `AmqpSubscriberConfig`. -/
structure AmqpSubscriberConfig where
  Exclusive : Bool
  AutoAck : Bool
deriving DecidableEq, Repr

/-- The parameters of the library call `(*amqp.Channel).Consume`, in the order of
its signature `Consume(queue, consumer, autoAck, exclusive, noLocal, noWait, args)`;
`args` is an `amqp.Table`, nil being `none`. -/
structure ConsumeRequest where
  queue : String
  consumer : String
  autoAck : Bool
  exclusive : Bool
  noLocal : Bool
  noWait : Bool
  args : Option (List (String × String))
deriving DecidableEq, Repr

/-- The observable actions of the subscriber, in program order. -/
inductive Effect where
  /-- The call `conn.Channel()`. -/
  | openChannel
  /-- The call `ch.Consume(...)` with its arguments. -/
  | consume (req : ConsumeRequest)
  /-- The call `NewFanin(channels)` with the number of channels passed. -/
  | newFanin (inputs : Nat)
  /-- The send `tapCh <- m`. -/
  | send (tapCh : TapChannel) (m : TapMessage)
  /-- The call `s.logger.Printf(line)`. -/
  | printf (line : String)
deriving DecidableEq, Repr

/-- The envelopes sent on `tapCh`, in order. -/
def sentOn (tapCh : TapChannel) (effects : List Effect) : List TapMessage :=
  effects.filterMap fun e =>
    match e with
    | Effect.send ch m => if ch = tapCh then some m else none
    | _ => none

/-- The consume requests issued, in order. -/
def consumeRequests (effects : List Effect) : List ConsumeRequest :=
  effects.filterMap fun e =>
    match e with
    | Effect.consume req => some req
    | _ => none

/-! ## The message loop -/

/-- A value of type `interface{}` as read from `fanin.Ch`: either the nil
interface or a value of dynamic type `amqp.Delivery`. -/
inductive Iface where
  | nil
  | delivery (d : Delivery)
deriving DecidableEq, Repr

/-- The comma-ok type assertion `message.(amqp.Delivery)`: on failure the value
is the zero `amqp.Delivery` and ok is false. -/
def Iface.assertDelivery : Iface → Delivery × Bool
  | Iface.delivery d => (d, true)
  | Iface.nil => (Delivery.zero, false)

/-- What one iteration of the `select` in `messageLoop` receives. -/
inductive SelectOutcome where
  /-- The case `message := <-fanin.Ch` was taken; `now` is the reading of
  `time.Now()` in that iteration. -/
  | message (message : Iface) (now : Time)
  /-- The case `controlMessage := <-controlCh` was taken. -/
  | control (controlMessage : ControlMessage)
deriving DecidableEq, Repr

/-- A receive on `fanin.Ch` that yields a delivery the source produced. -/
def SelectOutcome.ofDelivery (p : Delivery × Time) : SelectOutcome :=
  SelectOutcome.message (Iface.delivery p.1) p.2

/-- A receive on `fanin.Ch` after that channel was closed: in Go a receive on a
closed channel never blocks and yields the zero value, here the nil interface. -/
def SelectOutcome.faninClosed (now : Time) : SelectOutcome :=
  SelectOutcome.message Iface.nil now

/-- Go `AmqpSubscriber.messageLoop`, run against the outcomes of its `select`.
The receiver is used for its logger only, whose calls are recorded as effects. -/
def messageLoop (tapCh : TapChannel) : List SelectOutcome → List Effect × Option ReconnectAction
  | [] => ([], none)
  | SelectOutcome.message message now :: rest =>
    let amqpMessage := message.assertDelivery.1
    let r := messageLoop tapCh rest
    (Effect.send tapCh (NewTapMessage (some amqpMessage) none now) :: r.1, r.2)
  | SelectOutcome.control ControlMessage.shutdownMessage :: _ =>
    ([Effect.printf "AmqpSubscriber: shutdown"], some ReconnectAction.doNotReconnect)
  | SelectOutcome.control ControlMessage.reconnectMessage :: _ =>
    ([Effect.printf "AmqpSubscriber: ending worker due to reconnect"],
      some ReconnectAction.doReconnect)

/-! ## Consumer identity -/

/-- The library type `uuid.UUID`, an array of sixteen bytes. -/
structure UUID where
  bytes : List (Fin 256)
  size : bytes.length = 16
deriving DecidableEq

/-- The digits used by Go `encoding/hex`. -/
def hextable : List Char := "0123456789abcdef".toList

/-- One hexadecimal digit, `hextable[n]`. -/
def hexDigit (n : Nat) : Char := hextable.getD n '0'

/-- Go `hex.Encode`: two digits per byte, `hextable[v>>4]` then `hextable[v&0x0f]`. -/
def hexEncode : List (Fin 256) → List Char
  | [] => []
  | v :: rest => hexDigit (v.val / 16) :: hexDigit (v.val % 16) :: hexEncode rest

/-- The library method `UUID.String`: the form
xxxxxxxx-xxxx-xxxx-xxxx-xxxxxxxxxxxx, built from bytes 0-3, 4-5, 6-7, 8-9, 10-15. -/
def UUID.String (u : UUID) : String :=
  String.mk (hexEncode (u.bytes.take 4) ++ '-' ::
    (hexEncode ((u.bytes.drop 4).take 2) ++ '-' ::
    (hexEncode ((u.bytes.drop 6).take 2) ++ '-' ::
    (hexEncode ((u.bytes.drop 8).take 2) ++ '-' ::
    hexEncode (u.bytes.drop 10)))))

/-- The byte `(b & 0x0f) | 0x40` that marks version 4. -/
def versionByte (b : Fin 256) : Fin 256 := ⟨b.val % 16 + 64, by omega⟩

/-- The byte `(b & 0x3f) | 0x80` that marks the variant. -/
def variantByte (b : Fin 256) : Fin 256 := ⟨b.val % 64 + 128, by omega⟩

/-- The library function `uuid.NewRandom` on the sixteen bytes `random` read from
the random source (the read is taken to succeed, so `uuid.Must` does not panic):
bytes 6 and 8 get the version and variant bits. -/
def NewRandom (random : UUID) : UUID :=
  ⟨(random.bytes.set 6 (versionByte (random.bytes.getD 6 0))).set 8
      (variantByte (random.bytes.getD 8 0)), by simp [random.size]⟩

/-- The Go slice expression `s[:n]` on a string of one-byte characters. -/
def sliceTo (s : String) (n : Nat) : String := String.mk (s.data.take n)

/-- The consumer argument computed in `consumeMessages`. -/
def consumerName (random : UUID) : String :=
  "__rabtap-consumer-" ++ sliceTo (NewRandom random).String 8

/-! ## Connection, worker and subscription -/

/-- The receive-only delivery channel returned by `Consume`, named by its
consumer; what is read from it reaches the message loop as select outcomes. -/
structure DeliveryChan where
  consumer : String
deriving DecidableEq, Repr

/-- The library type `*amqp.Channel`: the broker answers a consume request with
nil or with an error. -/
structure AmqpChannel where
  consumeError : ConsumeRequest → Option GoError

/-- The library call `(*amqp.Channel).Consume`. -/
def AmqpChannel.Consume (ch : AmqpChannel) (queue consumer : String)
    (autoAck exclusive noLocal noWait : Bool) (args : Option (List (String × String))) :
    List Effect × Except GoError DeliveryChan :=
  let req : ConsumeRequest := ⟨queue, consumer, autoAck, exclusive, noLocal, noWait, args⟩
  match ch.consumeError req with
  | some err => ([Effect.consume req], Except.error err)
  | none => ([Effect.consume req], Except.ok ⟨consumer⟩)

/-- The library type `*amqp.Connection`: opening a channel succeeds or fails. -/
structure Connection where
  channelResult : Except GoError AmqpChannel

/-- The library call `(*amqp.Connection).Channel`. -/
def Connection.Channel (conn : Connection) : List Effect × Except GoError AmqpChannel :=
  ([Effect.openChannel], conn.channelResult)

/-- What the environment supplies to one invocation of the worker: the bytes of
the random source, the reading of `time.Now()` on the setup-failure path, and
the outcomes of the `select` over `fanin.Ch` and `controlCh`. -/
structure Invocation where
  random : UUID
  now : Time
  outcomes : List SelectOutcome

/-- The Go type `AmqpWorkerFunc`; the action is `none` while the worker has not
returned. -/
abbrev AmqpWorkerFunc := Connection → Invocation → List Effect × Option ReconnectAction

/-- The type `AmqpConnector` (pkg/connector.go), of which the subscriber uses
the method `Connect`; it is a parameter of the development. -/
structure AmqpConnector where
  Connect : AmqpWorkerFunc → List Effect × Option GoError

/-- The struct `AmqpSubscriber`; its logger is represented by the `printf` effects. -/
structure AmqpSubscriber where
  config : AmqpSubscriberConfig
  connection : AmqpConnector

/-- Go `AmqpSubscriber.consumeMessages`. -/
def consumeMessages (s : AmqpSubscriber) (conn : Connection) (queueName : String)
    (random : UUID) : List Effect × Except GoError DeliveryChan :=
  match conn.Channel with
  | (e1, Except.error err) => (e1, Except.error err)
  | (e1, Except.ok ch) =>
    match ch.Consume queueName ("__rabtap-consumer-" ++ sliceTo (NewRandom random).String 8)
        s.config.AutoAck s.config.Exclusive false false none with
    | (e2, Except.error err) => (e1 ++ e2, Except.error err)
    | (e2, Except.ok msgs) => (e1 ++ e2, Except.ok msgs)

/-- Go `AmqpSubscriber.createWorkerFunc`. -/
def createWorkerFunc (s : AmqpSubscriber) (queueName : String) (tapCh : TapChannel) :
    AmqpWorkerFunc :=
  fun rabbitConn inv =>
    match consumeMessages s rabbitConn queueName inv.random with
    | (e1, Except.error err) =>
      (e1 ++ [Effect.send tapCh (NewTapMessage none (some err) inv.now)],
        some ReconnectAction.doNotReconnect)
    | (e1, Except.ok _) =>
      let r := messageLoop tapCh inv.outcomes
      (e1 ++ Effect.newFanin 1 :: r.1, r.2)

/-- Go `AmqpSubscriber.EstablishSubscription`; `now` is the reading of
`time.Now()` on the error path. -/
def EstablishSubscription (s : AmqpSubscriber) (queueName : String) (tapCh : TapChannel)
    (now : Time) : List Effect × Option GoError :=
  match s.connection.Connect (createWorkerFunc s queueName tapCh) with
  | (e, some err) => (e ++ [Effect.send tapCh (NewTapMessage none (some err) now)], some err)
  | (e, none) => (e, none)

/-- Exactly one of payload and error is set. -/
def TapMessage.exactlyOne (m : TapMessage) : Prop :=
  (m.AmqpMessage.isSome = true ∧ m.Error = none) ∨ (m.AmqpMessage = none ∧ m.Error.isSome = true)

instance (m : TapMessage) : Decidable m.exactlyOne := by
  unfold TapMessage.exactlyOne; infer_instance

/-- An example connector: it dials once, returns the dial error if there is
one, and otherwise runs the worker once on the connection and returns nil. -/
def dialOnce (dial : Except GoError Connection) (inv : Invocation) : AmqpConnector where
  Connect := fun worker =>
    match dial with
    | Except.error err => ([], some err)
    | Except.ok conn => ((worker conn inv).1, none)

/-! ## Tap command: start and shutdown of the taps -/

/-- A `*tls.Config` value, passed through unchanged. -/
structure TLSConfig where
  id : Nat
deriving DecidableEq, Repr

/-- The package logger `log` of the command, passed through unchanged. -/
structure Logger where
  name : String
deriving DecidableEq, Repr

/-- Modelled from the spec: the tap configuration (declared in pkg/tap.go, which
is not part of the sources at hand): the target URI and the exchange names. -/
structure TapConfiguration where
  AmqpURI : String
  Exchanges : List String
deriving DecidableEq, Repr

/-- A task started by `go tap.EstablishTap(exchanges, tapCh)`. -/
structure EstablishTapTask (τ : Type) where
  tap : τ
  exchanges : List String
  tapCh : TapChannel
deriving DecidableEq, Repr

/-- Go `establishTaps`. The constructor `NewAmqpTap` (pkg/tap.go) is a parameter;
the result is the returned slice of taps and the tasks started, in order. -/
def establishTaps {τ : Type} (NewAmqpTap : String → Option TLSConfig → Logger → τ) (log : Logger)
    (tapMessageChannel : TapChannel) (tapConfigs : List TapConfiguration)
    (tlsConfig : Option TLSConfig) : List τ × List (EstablishTapTask τ) :=
  tapConfigs.foldl
    (fun acc config =>
      let tap := NewAmqpTap config.AmqpURI tlsConfig log
      (acc.1 ++ [tap], acc.2 ++ [⟨tap, config.Exchanges, tapMessageChannel⟩]))
    ([], [])

/-- What `tapCmdShutdownFunc` does, in program order, with the result of each
method call. -/
inductive ShutdownEvent (τ : Type) where
  /-- The call `log.Info(line)`. -/
  | info (line : String)
  /-- The call `tap.Connected()` and what it reported. -/
  | connected (tap : τ) (result : Bool)
  /-- The call `tap.Close()` and what it returned. -/
  | close (tap : τ) (result : Option GoError)
  /-- The call `log.Errorf(format, err)`. -/
  | errorf (format : String) (err : GoError)
deriving DecidableEq, Repr

/-- The loop of `tapCmdShutdownFunc`. The methods `Connected` and `Close` of
`AmqpTap` (pkg/tap.go) are parameters: `Connected` reads the state `w` of the
taps, `Close` changes it and returns an error or nil. -/
def tapCmdShutdownLoop {ω τ : Type} (Connected : ω → τ → Bool)
    (Close : ω → τ → ω × Option GoError) : ω → List τ → ω × List (ShutdownEvent τ)
  | w, [] => (w, [])
  | w, tap :: rest =>
    if !Connected w tap then
      let r := tapCmdShutdownLoop Connected Close w rest
      (r.1, ShutdownEvent.connected tap false :: r.2)
    else
      match Close w tap with
      | (w1, some err) =>
        let r := tapCmdShutdownLoop Connected Close w1 rest
        (r.1, ShutdownEvent.connected tap true :: ShutdownEvent.close tap (some err) ::
          ShutdownEvent.errorf "error closing tap: %v" err :: r.2)
      | (w1, none) =>
        let r := tapCmdShutdownLoop Connected Close w1 rest
        (r.1, ShutdownEvent.connected tap true :: ShutdownEvent.close tap none :: r.2)

/-- Go `tapCmdShutdownFunc`: it returns nothing; the model returns the final
state of the taps and the events. -/
def tapCmdShutdownFunc {ω τ : Type} (Connected : ω → τ → Bool)
    (Close : ω → τ → ω × Option GoError) (w : ω) (taps : List τ) :
    ω × List (ShutdownEvent τ) :=
  let r := tapCmdShutdownLoop Connected Close w taps
  (r.1, ShutdownEvent.info "rabtap tap threads shutting down ..." :: r.2)

/-- The taps on which `Connected` was called, in order. -/
def visited {τ : Type} (events : List (ShutdownEvent τ)) : List τ :=
  events.filterMap fun e =>
    match e with
    | ShutdownEvent.connected tap _ => some tap
    | _ => none

/-- The taps that reported connected, in order. -/
def reportedConnected {τ : Type} (events : List (ShutdownEvent τ)) : List τ :=
  events.filterMap fun e =>
    match e with
    | ShutdownEvent.connected tap true => some tap
    | _ => none

/-- The taps on which `Close` was called, in order. -/
def closed {τ : Type} (events : List (ShutdownEvent τ)) : List τ :=
  events.filterMap fun e =>
    match e with
    | ShutdownEvent.close tap _ => some tap
    | _ => none

/-- The errors returned by the `Close` calls, in order. -/
def closeErrors {τ : Type} (events : List (ShutdownEvent τ)) : List GoError :=
  events.filterMap fun e =>
    match e with
    | ShutdownEvent.close _ (some err) => some err
    | _ => none

/-- The errors passed to `log.Errorf`, in order. -/
def loggedErrors {τ : Type} (events : List (ShutdownEvent τ)) : List GoError :=
  events.filterMap fun e =>
    match e with
    | ShutdownEvent.errorf _ err => some err
    | _ => none

/-- The `Connected` calls with what each reported, in order. -/
def connectedReports {τ : Type} (events : List (ShutdownEvent τ)) : List (τ × Bool) :=
  events.filterMap fun e =>
    match e with
    | ShutdownEvent.connected tap result => some (tap, result)
    | _ => none

/-- The `Close` calls with what each returned, in order. -/
def closeCalls {τ : Type} (events : List (ShutdownEvent τ)) : List (τ × Option GoError) :=
  events.filterMap fun e =>
    match e with
    | ShutdownEvent.close tap result => some (tap, result)
    | _ => none

/-- The contract of one visit, stated on its own: the state of the taps after
visiting `tap` in state `w` is the one `Close` leaves when the tap reports
connected, and `w` itself when it does not. -/
def stateAfterVisit {ω τ : Type} (Connected : ω → τ → Bool)
    (Close : ω → τ → ω × Option GoError) (w : ω) (tap : τ) : ω :=
  if Connected w tap then (Close w tap).1 else w

/-- The contract of the walk, stated on its own: each tap of the list paired
with the state of the taps at the moment it is visited, the first in the
initial state, each later one in the state the visits before it left. -/
def visits {ω τ : Type} (Connected : ω → τ → Bool) (Close : ω → τ → ω × Option GoError)
    (w : ω) (taps : List τ) : List (τ × ω) :=
  taps.zip (List.scanl (stateAfterVisit Connected Close) w taps)

/-! ## Example inputs -/

/-- Sixteen bytes of the random source. -/
def randomA : UUID :=
  ⟨[0x12, 0x34, 0x56, 0x78, 0x01, 0x02, 0x03, 0x04, 0x05, 0x06, 0x07, 0x08, 0x09, 0x0a, 0x0b, 0x0c],
    rfl⟩

/-- Sixteen other bytes of the random source, with the same first four. -/
def randomB : UUID :=
  ⟨[0x12, 0x34, 0x56, 0x78, 0xff, 0x02, 0x03, 0x04, 0x05, 0x06, 0x07, 0x08, 0x09, 0x0a, 0x0b, 0x0c],
    rfl⟩

/-- A tap channel. -/
def exampleTapCh : TapChannel := ⟨1⟩

/-- The error of a broker that does not know the queue. -/
def notFound : GoError := ⟨"Exception (404) Reason: NOT_FOUND - no queue"⟩

/-- A connection on which a channel opens and every consume request is accepted. -/
def acceptingConnection : Connection := ⟨Except.ok ⟨fun _ => none⟩⟩

/-- A connection on which a channel opens and every consume request is rejected. -/
def rejectingConnection : Connection := ⟨Except.ok ⟨fun _ => some notFound⟩⟩

/-- One invocation: a delivery arrives, then the shutdown message. -/
def exampleInvocation : Invocation :=
  ⟨randomA, 7,
    [SelectOutcome.ofDelivery (⟨"sub-exchange-test", "sub-queue-test", 1, "SubHello"⟩, 8),
      SelectOutcome.control ControlMessage.shutdownMessage]⟩

/-- A subscriber whose connector dials successfully once. -/
def exampleSubscriber : AmqpSubscriber :=
  ⟨⟨false, true⟩, dialOnce (Except.ok acceptingConnection) exampleInvocation⟩

/-! ## Theorems -/

/-! ### The message loop -/

/-- The envelope `messageLoop` builds for a value read from `fanin.Ch`. -/
theorem messageLoop_messages (tapCh : TapChannel) (ms : List (Iface × Time))
    (rest : List SelectOutcome) :
    messageLoop tapCh (ms.map (fun p => SelectOutcome.message p.1 p.2) ++ rest)
      = (ms.map (fun p => Effect.send tapCh (NewTapMessage (some p.1.assertDelivery.1) none p.2))
          ++ (messageLoop tapCh rest).1, (messageLoop tapCh rest).2) := by
  induction ms with
  | nil => simp
  | cons p ms ih => simp [messageLoop, ih]

theorem sentOn_append (tapCh : TapChannel) (xs ys : List Effect) :
    sentOn tapCh (xs ++ ys) = sentOn tapCh xs ++ sentOn tapCh ys := by
  simp [sentOn, List.filterMap_append]

theorem sentOn_map_send (tapCh : TapChannel) {α : Type} (f : α → TapMessage) (xs : List α) :
    sentOn tapCh (xs.map (fun x => Effect.send tapCh (f x))) = xs.map f := by
  induction xs with
  | nil => rfl
  | cons x xs ih =>
    simp only [sentOn, List.map_cons, List.filterMap_cons] at ih ⊢
    simp [ih]

theorem messageLoop_deliveries (tapCh : TapChannel) (ds : List (Delivery × Time))
    (rest : List SelectOutcome) :
    messageLoop tapCh (ds.map SelectOutcome.ofDelivery ++ rest)
      = (ds.map (fun p => Effect.send tapCh (NewTapMessage (some p.1) none p.2))
          ++ (messageLoop tapCh rest).1, (messageLoop tapCh rest).2) := by
  have h := messageLoop_messages tapCh (ds.map (fun p => (Iface.delivery p.1, p.2))) rest
  simpa [List.map_map, Function.comp_def, SelectOutcome.ofDelivery, Iface.assertDelivery] using h

theorem messageLoop_closed (tapCh : TapChannel) (ts : List Time) (rest : List SelectOutcome) :
    messageLoop tapCh (ts.map SelectOutcome.faninClosed ++ rest)
      = (ts.map (fun t => Effect.send tapCh (NewTapMessage (some Delivery.zero) none t))
          ++ (messageLoop tapCh rest).1, (messageLoop tapCh rest).2) := by
  have h := messageLoop_messages tapCh (ts.map (fun t => (Iface.nil, t))) rest
  simpa [List.map_map, Function.comp_def, SelectOutcome.faninClosed, Iface.assertDelivery] using h

theorem sentOn_messageLoop_control (tapCh : TapChannel) (c : ControlMessage)
    (rest : List SelectOutcome) :
    sentOn tapCh (messageLoop tapCh (SelectOutcome.control c :: rest)).1 = [] := by
  cases c <;> simp [messageLoop, sentOn]

/-- C1: after any finite sequence of deliveries, the first control message
decides what `messageLoop` returns: do-not-reconnect for shutdown, reconnect
for force-reconnect, however many deliveries came before it and whatever
would follow it. -/
theorem messageLoop_returns_on_first_control (tapCh : TapChannel) (ds : List (Delivery × Time))
    (rest : List SelectOutcome) :
    (messageLoop tapCh (ds.map SelectOutcome.ofDelivery
        ++ SelectOutcome.control ControlMessage.shutdownMessage :: rest)).2
      = some ReconnectAction.doNotReconnect
    ∧ (messageLoop tapCh (ds.map SelectOutcome.ofDelivery
        ++ SelectOutcome.control ControlMessage.reconnectMessage :: rest)).2
      = some ReconnectAction.doReconnect := by
  constructor <;> rw [messageLoop_deliveries] <;> simp [messageLoop]

/-- C2: for deliveries d1..dn read from the source before any control message,
`messageLoop` sends exactly n envelopes on the tap channel, the i-th one with
payload di and nil error, both while it is still waiting for more and after a
control message ended it; a delivery with body SubHello arrives as exactly one
envelope with that body. -/
theorem messageLoop_forwards_deliveries_in_order (tapCh : TapChannel)
    (ds : List (Delivery × Time)) :
    sentOn tapCh (messageLoop tapCh (ds.map SelectOutcome.ofDelivery)).1
      = ds.map (fun p => NewTapMessage (some p.1) none p.2)
    ∧ (∀ (c : ControlMessage) (rest : List SelectOutcome),
        sentOn tapCh (messageLoop tapCh
            (ds.map SelectOutcome.ofDelivery ++ SelectOutcome.control c :: rest)).1
          = ds.map (fun p => NewTapMessage (some p.1) none p.2))
    ∧ (∀ (ex key : String) (tag : Nat) (t : Time),
        sentOn tapCh (messageLoop tapCh
            [SelectOutcome.ofDelivery (⟨ex, key, tag, "SubHello"⟩, t)]).1
          = [⟨some ⟨ex, key, tag, "SubHello"⟩, none, t⟩]) := by
  refine ⟨?_, ?_, ?_⟩
  · have h := messageLoop_deliveries tapCh ds []
    rw [List.append_nil] at h
    rw [h, sentOn_append, sentOn_map_send]
    simp [messageLoop, sentOn]
  · intro c rest
    rw [messageLoop_deliveries, sentOn_append, sentOn_map_send, sentOn_messageLoop_control]
    simp
  · intro ex key tag t
    simp [messageLoop, sentOn, SelectOutcome.ofDelivery, Iface.assertDelivery, NewTapMessage]

/-- C6: what the code does when `fanin.Ch` is closed after the deliveries `ds`
and no control message arrives: every further iteration reads the nil interface
from the closed channel and sends an envelope whose payload is the zero
delivery, and after any number of such iterations the loop has not returned. -/
theorem messageLoop_closed_source_spins (tapCh : TapChannel) (ds : List (Delivery × Time))
    (ts : List Time) :
    (messageLoop tapCh (ds.map SelectOutcome.ofDelivery ++ ts.map SelectOutcome.faninClosed)).2
      = none
    ∧ sentOn tapCh
        (messageLoop tapCh (ds.map SelectOutcome.ofDelivery ++ ts.map SelectOutcome.faninClosed)).1
      = ds.map (fun p => NewTapMessage (some p.1) none p.2)
        ++ ts.map (fun t => NewTapMessage (some Delivery.zero) none t) := by
  have h := messageLoop_closed tapCh ts []
  rw [List.append_nil] at h
  rw [messageLoop_deliveries, h]
  constructor
  · simp [messageLoop]
  · simp only [sentOn_append, sentOn_map_send]
    simp [messageLoop, sentOn]

/-! ### Setup, worker and subscription -/

/-- The result of `consumeMessages` when opening the channel fails. -/
theorem consumeMessages_channel_error (s : AmqpSubscriber) (conn : Connection)
    (queueName : String) (random : UUID) (e : GoError)
    (h : conn.channelResult = Except.error e) :
    consumeMessages s conn queueName random = ([Effect.openChannel], Except.error e) := by
  simp [consumeMessages, Connection.Channel, h]

/-- The result of `consumeMessages` when the channel opens. -/
theorem consumeMessages_channel_ok (s : AmqpSubscriber) (conn : Connection)
    (queueName : String) (random : UUID) (ch : AmqpChannel)
    (h : conn.channelResult = Except.ok ch) :
    consumeMessages s conn queueName random
      = ([Effect.openChannel,
          Effect.consume ⟨queueName, consumerName random, s.config.AutoAck, s.config.Exclusive,
            false, false, none⟩],
        match ch.consumeError ⟨queueName, consumerName random, s.config.AutoAck,
            s.config.Exclusive, false, false, none⟩ with
        | some err => Except.error err
        | none => Except.ok ⟨consumerName random⟩) := by
  simp only [consumeMessages, Connection.Channel, h, AmqpChannel.Consume, consumerName]
  split <;> rename_i heq <;> split at heq <;> simp_all

/-- C3: on a connection where consume setup fails with error `e` (opening the
channel fails, or the channel opens and the consume request is rejected), the
worker sends exactly one envelope on the tap channel, with nil payload and
error `e`, returns do-not-reconnect, and does not create the fan-in or enter the
message loop, whatever deliveries and control messages are pending. -/
theorem createWorkerFunc_setup_failure (s : AmqpSubscriber) (queueName : String)
    (tapCh : TapChannel) (conn : Connection) (inv : Invocation) (e : GoError)
    (hfail : conn.channelResult = Except.error e
      ∨ ∃ ch, conn.channelResult = Except.ok ch
          ∧ ch.consumeError ⟨queueName, consumerName inv.random, s.config.AutoAck,
              s.config.Exclusive, false, false, none⟩ = some e) :
    sentOn tapCh (createWorkerFunc s queueName tapCh conn inv).1
        = [NewTapMessage none (some e) inv.now]
      ∧ (createWorkerFunc s queueName tapCh conn inv).2 = some ReconnectAction.doNotReconnect
      ∧ Effect.newFanin 1 ∉ (createWorkerFunc s queueName tapCh conn inv).1
      ∧ (createWorkerFunc s queueName tapCh conn inv).1.getLast?
        = some (Effect.send tapCh (NewTapMessage none (some e) inv.now)) := by
  rcases hfail with h | ⟨ch, h, hc⟩
  · simp [createWorkerFunc, consumeMessages_channel_error s conn queueName inv.random e h, sentOn]
  · simp [createWorkerFunc, consumeMessages_channel_ok s conn queueName inv.random ch h, hc, sentOn]

/-- C3 at a connection whose broker rejects the consume request. -/
theorem createWorkerFunc_setup_failure_witness :
    (rejectingConnection.channelResult = Except.error notFound
      ∨ ∃ ch, rejectingConnection.channelResult = Except.ok ch
          ∧ ch.consumeError ⟨"queue", consumerName exampleInvocation.random,
              exampleSubscriber.config.AutoAck, exampleSubscriber.config.Exclusive,
              false, false, none⟩ = some notFound)
    ∧ (sentOn exampleTapCh
          (createWorkerFunc exampleSubscriber "queue" exampleTapCh rejectingConnection
            exampleInvocation).1
        = [NewTapMessage none (some notFound) exampleInvocation.now]
      ∧ (createWorkerFunc exampleSubscriber "queue" exampleTapCh rejectingConnection
            exampleInvocation).2 = some ReconnectAction.doNotReconnect
      ∧ Effect.newFanin 1 ∉ (createWorkerFunc exampleSubscriber "queue" exampleTapCh
            rejectingConnection exampleInvocation).1
      ∧ (createWorkerFunc exampleSubscriber "queue" exampleTapCh rejectingConnection
            exampleInvocation).1.getLast?
        = some (Effect.send exampleTapCh
            (NewTapMessage none (some notFound) exampleInvocation.now))) :=
  ⟨Or.inr ⟨_, rfl, rfl⟩,
    createWorkerFunc_setup_failure exampleSubscriber "queue" exampleTapCh rejectingConnection
      exampleInvocation notFound (Or.inr ⟨_, rfl, rfl⟩)⟩

/-- C4: `EstablishSubscription` returns exactly the error `Connect` returned;
its effects are those of `Connect` followed, when that error is non-nil, by
exactly one send on the tap channel of an envelope with nil payload and that
error, and by nothing when it is nil. -/
theorem EstablishSubscription_surfaces_connect_error (s : AmqpSubscriber) (queueName : String)
    (tapCh : TapChannel) (now : Time) :
    (EstablishSubscription s queueName tapCh now).2
        = (s.connection.Connect (createWorkerFunc s queueName tapCh)).2
      ∧ (EstablishSubscription s queueName tapCh now).1
        = (s.connection.Connect (createWorkerFunc s queueName tapCh)).1
          ++ (match (s.connection.Connect (createWorkerFunc s queueName tapCh)).2 with
              | some err => [Effect.send tapCh (NewTapMessage none (some err) now)]
              | none => []) := by
  unfold EstablishSubscription
  rcases hc : s.connection.Connect (createWorkerFunc s queueName tapCh) with ⟨eff, _ | err⟩ <;>
    simp

/-- C10: `consumeMessages` issues no consume request when the channel does not
open, and otherwise exactly one, which names the given queue, has auto-ack
equal to `config.AutoAck` and exclusive equal to `config.Exclusive`, has
no-local and no-wait false and nil arguments. -/
theorem consumeMessages_request (s : AmqpSubscriber) (conn : Connection) (queueName : String)
    (random : UUID) :
    consumeRequests (consumeMessages s conn queueName random).1
      = match conn.channelResult with
        | Except.error _ => []
        | Except.ok _ =>
          [{ queue := queueName, consumer := consumerName random,
             autoAck := s.config.AutoAck, exclusive := s.config.Exclusive,
             noLocal := false, noWait := false, args := none }] := by
  rcases h : conn.channelResult with e | ch
  · simp [consumeMessages_channel_error s conn queueName random e h, consumeRequests]
  · simp [consumeMessages_channel_ok s conn queueName random ch h, consumeRequests]

/-! ### Payload or error -/

theorem messageLoop_send_exactlyOne (tapCh : TapChannel) (outcomes : List SelectOutcome)
    (ch : TapChannel) (m : TapMessage)
    (h : Effect.send ch m ∈ (messageLoop tapCh outcomes).1) : m.exactlyOne := by
  induction outcomes with
  | nil => simp [messageLoop] at h
  | cons o rest ih =>
    cases o with
    | message v now =>
      simp only [messageLoop, List.mem_cons] at h
      rcases h with h | h
      · injection h with _ hm
        subst hm
        exact Or.inl ⟨rfl, rfl⟩
      · exact ih h
    | control c => cases c <;> simp [messageLoop] at h

theorem createWorkerFunc_send_exactlyOne (s : AmqpSubscriber) (queueName : String)
    (tapCh : TapChannel) (conn : Connection) (inv : Invocation) (ch : TapChannel)
    (m : TapMessage)
    (h : Effect.send ch m ∈ (createWorkerFunc s queueName tapCh conn inv).1) :
    m.exactlyOne := by
  rcases hc : conn.channelResult with e | c
  · simp [createWorkerFunc, consumeMessages_channel_error s conn queueName inv.random e hc] at h
    rw [h.2]
    exact Or.inr ⟨rfl, rfl⟩
  · rw [createWorkerFunc, consumeMessages_channel_ok s conn queueName inv.random c hc] at h
    rcases hq : c.consumeError ⟨queueName, consumerName inv.random, s.config.AutoAck,
        s.config.Exclusive, false, false, none⟩ with _ | e
    · simp [hq] at h
      exact messageLoop_send_exactlyOne tapCh inv.outcomes ch m h
    · simp [hq] at h
      rw [h.2]
      exact Or.inr ⟨rfl, rfl⟩

/-- C5: every envelope the subscriber sends has exactly one of payload and
error set: those sent by `messageLoop`, those sent by the worker (setup-failure
path included), and, for a connector that sends on the tap channel only through
the worker it is given, all those sent during `EstablishSubscription`. -/
theorem sent_envelopes_payload_xor_error (s : AmqpSubscriber) (queueName : String)
    (tapCh : TapChannel) (now : Time)
    (hconn : ∀ (worker : AmqpWorkerFunc) (ch : TapChannel) (m : TapMessage),
      Effect.send ch m ∈ (s.connection.Connect worker).1 →
        ∃ conn inv, Effect.send ch m ∈ (worker conn inv).1) :
    (∀ outcomes ch m, Effect.send ch m ∈ (messageLoop tapCh outcomes).1 → m.exactlyOne)
      ∧ (∀ conn inv ch m,
          Effect.send ch m ∈ (createWorkerFunc s queueName tapCh conn inv).1 → m.exactlyOne)
      ∧ (∀ ch m,
          Effect.send ch m ∈ (EstablishSubscription s queueName tapCh now).1 → m.exactlyOne) := by
  refine ⟨messageLoop_send_exactlyOne tapCh, createWorkerFunc_send_exactlyOne s queueName tapCh,
    ?_⟩
  intro ch m h
  have viaWorker : Effect.send ch m ∈ (s.connection.Connect (createWorkerFunc s queueName tapCh)).1
      → m.exactlyOne := by
    intro hm
    obtain ⟨conn, inv, hw⟩ := hconn _ ch m hm
    exact createWorkerFunc_send_exactlyOne s queueName tapCh conn inv ch m hw
  unfold EstablishSubscription at h
  rcases hc : s.connection.Connect (createWorkerFunc s queueName tapCh) with ⟨eff, _ | err⟩
  · rw [hc] at h viaWorker
    exact viaWorker h
  · rw [hc] at h viaWorker
    simp only [List.mem_append, List.mem_singleton] at h
    rcases h with h | h
    · exact viaWorker h
    · injection h with _ hm
      subst hm
      exact Or.inr ⟨rfl, rfl⟩

/-- C5 at a subscriber whose connector dials once: the envelope carrying the
SubHello delivery has a payload and no error. -/
theorem sent_envelopes_payload_xor_error_witness :
    (∀ (worker : AmqpWorkerFunc) (ch : TapChannel) (m : TapMessage),
      Effect.send ch m ∈ (exampleSubscriber.connection.Connect worker).1 →
        ∃ conn inv, Effect.send ch m ∈ (worker conn inv).1)
    ∧ (NewTapMessage (some ⟨"sub-exchange-test", "sub-queue-test", 1, "SubHello"⟩) none
        8).exactlyOne :=
  ⟨fun _ _ _ h => ⟨acceptingConnection, exampleInvocation, h⟩,
    (sent_envelopes_payload_xor_error exampleSubscriber "sub-queue-test" exampleTapCh 9
      (fun _ _ _ h => ⟨acceptingConnection, exampleInvocation, h⟩)).2.2 exampleTapCh _
      (by decide)⟩

/-! ### Consumer identity -/

theorem hexDigit_injective :
    ∀ a b : Fin 16, hexDigit a.val = hexDigit b.val → a = b := by decide

theorem hexEncode_byte_injective (v w : Fin 256)
    (hi : hexDigit (v.val / 16) = hexDigit (w.val / 16))
    (lo : hexDigit (v.val % 16) = hexDigit (w.val % 16)) : v = w := by
  have h1 := hexDigit_injective ⟨v.val / 16, by omega⟩ ⟨w.val / 16, by omega⟩ hi
  have h2 := hexDigit_injective ⟨v.val % 16, Nat.mod_lt _ (by decide)⟩
    ⟨w.val % 16, Nat.mod_lt _ (by decide)⟩ lo
  simp only [Fin.mk.injEq] at h1 h2
  apply Fin.ext
  omega

theorem hexEncode_injective : ∀ xs ys : List (Fin 256), hexEncode xs = hexEncode ys → xs = ys
  | [], [] => fun _ => rfl
  | [], _ :: _ => fun h => by simp [hexEncode] at h
  | _ :: _, [] => fun h => by simp [hexEncode] at h
  | v :: xs, w :: ys => fun h => by
    simp only [hexEncode, List.cons.injEq] at h
    obtain ⟨hi, lo, tl⟩ := h
    rw [hexEncode_byte_injective v w hi lo, hexEncode_injective xs ys tl]

theorem hexEncode_length (xs : List (Fin 256)) : (hexEncode xs).length = 2 * xs.length := by
  induction xs with
  | nil => rfl
  | cons v xs ih => simp [hexEncode, ih]; omega

/-- The first eight characters of the string form are the digits of the first
four bytes. -/
theorem sliceTo_String (u : UUID) :
    sliceTo u.String 8 = String.mk (hexEncode (u.bytes.take 4)) := by
  have hlen : (hexEncode (u.bytes.take 4)).length = 8 := by
    rw [hexEncode_length, List.length_take, u.size]
    decide
  simp only [sliceTo, UUID.String]
  rw [List.take_left' hlen]

theorem NewRandom_take (random : UUID) :
    (NewRandom random).bytes.take 4 = random.bytes.take 4 := by
  simp only [NewRandom]
  rw [List.take_set_of_lt _ _ (by decide), List.take_set_of_lt _ _ (by decide)]

theorem consumerName_eq_iff (r1 r2 : UUID) :
    consumerName r1 = consumerName r2 ↔ r1.bytes.take 4 = r2.bytes.take 4 := by
  simp only [consumerName, sliceTo_String, NewRandom_take, String.ext_iff, String.data_append,
    List.append_cancel_left_eq]
  exact ⟨fun h => hexEncode_injective _ _ h, fun h => by rw [h]⟩

/-- C9, as stated, fails: two invocations whose generated UUIDs differ pass the
same consumer identity to the consume request when the UUIDs agree on their
first four bytes. -/
theorem consumer_identity_collision :
    NewRandom randomA ≠ NewRandom randomB
      ∧ (consumeRequests
            (consumeMessages exampleSubscriber acceptingConnection "queue" randomA).1).map
          ConsumeRequest.consumer = ["__rabtap-consumer-12345678"]
      ∧ (consumeRequests
            (consumeMessages exampleSubscriber acceptingConnection "queue" randomB).1).map
          ConsumeRequest.consumer = ["__rabtap-consumer-12345678"] := by
  decide

/-- C9, amended: on a connection whose channel opens, the consumer identities
that two invocations of `consumeMessages` pass to the consume request differ
exactly when the generated UUIDs differ in their first four bytes, which are
the first eight characters of the UUID string. -/
theorem consumer_identity_differs_iff (s : AmqpSubscriber) (ch : AmqpChannel)
    (queueName : String) (r1 r2 : UUID) :
    ((consumeRequests (consumeMessages s ⟨Except.ok ch⟩ queueName r1).1).map
          ConsumeRequest.consumer
        ≠ (consumeRequests (consumeMessages s ⟨Except.ok ch⟩ queueName r2).1).map
          ConsumeRequest.consumer)
      ↔ (NewRandom r1).bytes.take 4 ≠ (NewRandom r2).bytes.take 4 := by
  rw [consumeMessages_channel_ok s ⟨Except.ok ch⟩ queueName r1 ch rfl,
    consumeMessages_channel_ok s ⟨Except.ok ch⟩ queueName r2 ch rfl]
  simp only [consumeRequests, List.filterMap_cons, List.filterMap_nil, List.map_cons,
    List.map_nil, ne_eq, List.cons.injEq, and_true, NewRandom_take]
  rw [consumerName_eq_iff]

/-! ### Tap command -/

theorem establishTaps_foldl {τ : Type} (NewAmqpTap : String → Option TLSConfig → Logger → τ)
    (log : Logger) (tapCh : TapChannel) (tlsConfig : Option TLSConfig)
    (tapConfigs : List TapConfiguration) (acc : List τ × List (EstablishTapTask τ)) :
    tapConfigs.foldl
        (fun acc config =>
          let tap := NewAmqpTap config.AmqpURI tlsConfig log
          (acc.1 ++ [tap], acc.2 ++ [⟨tap, config.Exchanges, tapCh⟩]))
        acc
      = (acc.1 ++ tapConfigs.map (fun c => NewAmqpTap c.AmqpURI tlsConfig log),
          acc.2 ++ tapConfigs.map
            (fun c => ⟨NewAmqpTap c.AmqpURI tlsConfig log, c.Exchanges, tapCh⟩)) := by
  induction tapConfigs generalizing acc with
  | nil => simp
  | cons c cs ih => simp [List.foldl_cons, ih]

/-- C8: `establishTaps` returns one tap per configuration, the i-th created
from the i-th configuration's URI and the shared TLS config, and starts one
`EstablishTap` task per configuration, on that very tap, with that
configuration's exchanges and the shared tap channel; the lengths agree, and
for the empty list nothing is returned and nothing started. -/
theorem establishTaps_one_per_configuration {τ : Type}
    (NewAmqpTap : String → Option TLSConfig → Logger → τ) (log : Logger) (tapCh : TapChannel)
    (tapConfigs : List TapConfiguration) (tlsConfig : Option TLSConfig) :
    (establishTaps NewAmqpTap log tapCh tapConfigs tlsConfig).1
        = tapConfigs.map (fun c => NewAmqpTap c.AmqpURI tlsConfig log)
      ∧ (establishTaps NewAmqpTap log tapCh tapConfigs tlsConfig).2
        = tapConfigs.map (fun c => ⟨NewAmqpTap c.AmqpURI tlsConfig log, c.Exchanges, tapCh⟩)
      ∧ (establishTaps NewAmqpTap log tapCh tapConfigs tlsConfig).2.map EstablishTapTask.tap
        = (establishTaps NewAmqpTap log tapCh tapConfigs tlsConfig).1
      ∧ (establishTaps NewAmqpTap log tapCh tapConfigs tlsConfig).1.length = tapConfigs.length
      ∧ (establishTaps NewAmqpTap log tapCh tapConfigs tlsConfig).2.length = tapConfigs.length
      ∧ establishTaps NewAmqpTap log tapCh [] tlsConfig = ([], []) := by
  have h := establishTaps_foldl NewAmqpTap log tapCh tlsConfig tapConfigs ([], [])
  simp only [List.nil_append] at h
  unfold establishTaps
  rw [h]
  simp [Function.comp_def]

theorem tapCmdShutdownLoop_trace {ω τ : Type} (Connected : ω → τ → Bool)
    (Close : ω → τ → ω × Option GoError) (taps : List τ) :
    ∀ w : ω,
      visited (tapCmdShutdownLoop Connected Close w taps).2 = taps
        ∧ closed (tapCmdShutdownLoop Connected Close w taps).2
          = reportedConnected (tapCmdShutdownLoop Connected Close w taps).2
        ∧ loggedErrors (tapCmdShutdownLoop Connected Close w taps).2
          = closeErrors (tapCmdShutdownLoop Connected Close w taps).2 := by
  induction taps with
  | nil => intro w; simp [tapCmdShutdownLoop, visited, closed, reportedConnected, loggedErrors,
      closeErrors]
  | cons tap rest ih =>
    intro w
    unfold tapCmdShutdownLoop
    by_cases hc : Connected w tap = true
    · rcases hcl : Close w tap with ⟨w1, _ | err⟩
      · have h := ih w1
        simp only [visited, closed, reportedConnected, loggedErrors, closeErrors] at h ⊢
        simp [hc, h]
      · have h := ih w1
        simp only [visited, closed, reportedConnected, loggedErrors, closeErrors] at h ⊢
        simp [hc, h]
    · have h := ih w
      simp only [visited, closed, reportedConnected, loggedErrors, closeErrors] at h ⊢
      simp [hc, h]

theorem tapCmdShutdownLoop_independent {τ : Type} (connected : τ → Bool)
    (close : τ → Option GoError) (taps : List τ) :
    closed (tapCmdShutdownLoop (fun (_ : Unit) t => connected t) (fun u t => (u, close t)) ()
        taps).2 = taps.filter connected := by
  induction taps with
  | nil => simp [tapCmdShutdownLoop, closed]
  | cons tap rest ih =>
    unfold tapCmdShutdownLoop
    by_cases hc : connected tap = true
    · rcases hcl : close tap with _ | err
      · simp only [closed] at ih ⊢
        simp [hc, hcl, ih]
      · simp only [closed] at ih ⊢
        simp [hc, hcl, ih]
    · simp only [closed] at ih ⊢
      simp [hc, ih]

theorem tapCmdShutdownLoop_calls {ω τ : Type} (Connected : ω → τ → Bool)
    (Close : ω → τ → ω × Option GoError) (taps : List τ) :
    ∀ w : ω,
      (tapCmdShutdownLoop Connected Close w taps).1
          = taps.foldl (stateAfterVisit Connected Close) w
        ∧ connectedReports (tapCmdShutdownLoop Connected Close w taps).2
          = (visits Connected Close w taps).map (fun p => (p.1, Connected p.2 p.1))
        ∧ closeCalls (tapCmdShutdownLoop Connected Close w taps).2
          = ((visits Connected Close w taps).filter (fun p => Connected p.2 p.1)).map
              (fun p => (p.1, (Close p.2 p.1).2))
        ∧ loggedErrors (tapCmdShutdownLoop Connected Close w taps).2
          = ((visits Connected Close w taps).filter (fun p => Connected p.2 p.1)).filterMap
              (fun p => (Close p.2 p.1).2) := by
  induction taps with
  | nil =>
    intro w
    simp [tapCmdShutdownLoop, connectedReports, closeCalls, loggedErrors, visits]
  | cons tap rest ih =>
    intro w
    unfold tapCmdShutdownLoop
    by_cases hc : Connected w tap = true
    · rcases hcl : Close w tap with ⟨w1, _ | err⟩
      · have h := ih w1
        simp only [connectedReports, closeCalls, loggedErrors, visits] at h ⊢
        simp [hc, hcl, h, stateAfterVisit, List.scanl_cons]
      · have h := ih w1
        simp only [connectedReports, closeCalls, loggedErrors, visits] at h ⊢
        simp [hc, hcl, h, stateAfterVisit, List.scanl_cons]
    · have h := ih w
      simp only [connectedReports, closeCalls, loggedErrors, visits] at h ⊢
      simp [hc, h, stateAfterVisit, List.scanl_cons]

/-- C7: `tapCmdShutdownFunc` calls `Connected` on every tap of the list once, in
list order, whatever the `Close` calls return; it calls `Close` exactly on the
visits that reported connected, in the same order; every error a `Close`
returns is logged and nothing but the state of the taps and the events comes
back to the caller. For taps whose state is independent of each other, `Close`
is called exactly on the connected taps of the list, in list order.
The calls are those of the parameters on the threaded state: the i-th tap is
asked `Connected` in the state the earlier visits left and reports what
`Connected` says there; `Close` is called in that state exactly when it says
connected, and the recorded result is what `Close` returns there; the errors
logged are the errors those `Close` calls return; the final state is the one
left by applying `Close` at each connected visit and nothing else. -/
theorem tapCmdShutdownFunc_closes_connected {ω τ : Type} (Connected : ω → τ → Bool)
    (Close : ω → τ → ω × Option GoError) (w : ω) (taps : List τ) :
    visited (tapCmdShutdownFunc Connected Close w taps).2 = taps
      ∧ closed (tapCmdShutdownFunc Connected Close w taps).2
        = reportedConnected (tapCmdShutdownFunc Connected Close w taps).2
      ∧ loggedErrors (tapCmdShutdownFunc Connected Close w taps).2
        = closeErrors (tapCmdShutdownFunc Connected Close w taps).2
      ∧ (∀ (connected : τ → Bool) (close : τ → Option GoError),
          closed (tapCmdShutdownFunc (fun (_ : Unit) t => connected t) (fun u t => (u, close t))
            () taps).2 = taps.filter connected)
      ∧ (tapCmdShutdownFunc Connected Close w taps).1
        = taps.foldl (stateAfterVisit Connected Close) w
      ∧ connectedReports (tapCmdShutdownFunc Connected Close w taps).2
        = (visits Connected Close w taps).map (fun p => (p.1, Connected p.2 p.1))
      ∧ closeCalls (tapCmdShutdownFunc Connected Close w taps).2
        = ((visits Connected Close w taps).filter (fun p => Connected p.2 p.1)).map
            (fun p => (p.1, (Close p.2 p.1).2))
      ∧ loggedErrors (tapCmdShutdownFunc Connected Close w taps).2
        = ((visits Connected Close w taps).filter (fun p => Connected p.2 p.1)).filterMap
            (fun p => (Close p.2 p.1).2) := by
  have h := tapCmdShutdownLoop_trace Connected Close taps w
  have g := tapCmdShutdownLoop_calls Connected Close taps w
  refine ⟨?_, ?_, ?_, ?_, ?_, ?_, ?_, ?_⟩
  · simpa [tapCmdShutdownFunc, visited] using h.1
  · simpa [tapCmdShutdownFunc, closed, reportedConnected] using h.2.1
  · simpa [tapCmdShutdownFunc, loggedErrors, closeErrors] using h.2.2
  · intro connected close
    have h2 := tapCmdShutdownLoop_independent connected close taps
    simpa [tapCmdShutdownFunc, closed] using h2
  · simpa [tapCmdShutdownFunc] using g.1
  · simpa [tapCmdShutdownFunc, connectedReports] using g.2.1
  · simpa [tapCmdShutdownFunc, closeCalls] using g.2.2.1
  · simpa [tapCmdShutdownFunc, loggedErrors] using g.2.2.2

end Rabtap
